import Mathlib

/-!
Verification of the shader-binding-table (SBT) core of Falcor's
`RtProgramVars` (Framework/Source/Raytracing/RtProgramVars.cpp).

The C++ is embedded shallowly: every arithmetic quantity the source keeps in
a `uint32_t` is a `Nat` reduced modulo `2^32` (`mod32`) at the points where
the source stores an expression into a 32-bit variable; for pure `+`/`*`
expressions a single outer reduction is equivalent to wrapping every
intermediate operation.  External collaborator types (programs, scene,
device, buffers) are reduced to the data this core consumes from them: a
program contributes its root-signature byte size, a scene answers
`getGeometryCount`, the device supplies the shader-identifier size and the
record alignment, and the binding-application callback for each record is an
externally supplied success/failure bit.
-/

namespace Falcor

/-- Reduction modulo `2^32`: the value a C++ `uint32_t` variable holds. -/
def mod32 (n : Nat) : Nat := n % 4294967296

/-- The data this core reads from one program (`getActiveVersion()` →
`getRootSignature()->getSizeInBytes()` collapses to one byte count). -/
structure ProgDesc where
  rootSigSize : Nat
deriving DecidableEq

/-- An `RtProgram`: at most one ray-generation program, an ordered list of
hit-group programs and an ordered list of miss programs.  `getRayGenProgram()`
returning `nullptr` is `none`. -/
structure RtProgram where
  rayGen : Option ProgDesc
  hitProgs : List ProgDesc
  missProgs : List ProgDesc

/-- An `RtScene`, reduced to the one query this core makes of it:
`getGeometryCount(rayCount)`. -/
structure Scene where
  getGeometryCount : Nat → Nat

/-- Function `getSigSizeAndCreateVars` (RtProgramVars.cpp:66-75): updates the
running maximum root-signature size by `maxRootSigSize = max(size,
maxRootSigSize)`.  The `GraphicsVars::create` side effect allocates
binding-variable stores and carries no data this development needs. -/
def getSigSizeAndCreateVars (pProg : ProgDesc) (maxRootSigSize : Nat) : Nat :=
  max pProg.rootSigSize maxRootSigSize

/-- Modelled from the spec: `align_to` lives in Framework.h, which is not
among the repository's files; the spec describes it as the device's
`alignUp(boundary, size)` rule rounding `value` up to the next multiple of
`alignment`. -/
def align_to (alignment value : Nat) : Nat :=
  ((value + alignment - 1) / alignment) * alignment

/-- Modelled from the spec: `kRayGenSbtRecordIndex` is declared in
RtProgramVars.h, which is not among the repository's files; the spec places
the ray-gen record at offset 0 and the in-file layout comment puts the
ray-gen entry first. -/
def kRayGenSbtRecordIndex : Nat := 0

/-- Modelled from the spec: `kFirstMissSbtRecordIndex` is declared in
RtProgramVars.h, which is not among the repository's files; the spec sets
`firstMissIndex = rayGenSlotCount (=1)` and the in-file layout comment puts
the miss records immediately after the single ray-gen entry. -/
def kFirstMissSbtRecordIndex : Nat := 1

/-- The member state `RtProgramVars::init` computes (RtProgramVars.cpp:77-122).
`numEntries` and `sbtSize` record the local `numEntries` and the byte size
passed to `Buffer::create`; `sbtDataSize` is `mSbtData.size()` after
`mSbtData.resize(mpSBT->getSize())`. -/
structure RtVars where
  missProgCount : Nat
  hitProgCount : Nat
  firstHitVarEntry : Nat
  recordCountPerHit : Nat
  programIdentifierSize : Nat
  recordSize : Nat
  numEntries : Nat
  sbtSize : Nat
  sbtDataSize : Nat
deriving DecidableEq

/-- Member `RtProgramVars::init` (RtProgramVars.cpp:77-122), as the pure
computation of the member state.  `rg` is the ray-gen program, already known
non-null because `create` runs `checkParams` first.  The per-hit-program loop
calls `getSigSizeAndCreateVars` once per program (the callee folds the
maximum once per call, independent of `varCount`), so each hit program's size
enters the maximum once, even when the geometry count is zero.  The buffer
allocator is modelled from the spec as returning a buffer of exactly the
requested size (`Buffer::create`/`getSize` are not among the repository's
files), so `assert(mpSBT)` passes and `mSbtData.resize(mpSBT->getSize())`
makes the staging size equal `sbtSize`.  The surviving assertion
`assert(mRecordSize != 0)` is handled in `create` below. -/
def init (identifierSize alignment : Nat) (pProgram : RtProgram) (rg : ProgDesc)
    (pScene : Scene) : RtVars :=
  let maxRootSigSize0 := getSigSizeAndCreateVars rg 0
  let mHitProgCount := pProgram.hitProgs.length
  let mMissProgCount := pProgram.missProgs.length
  let mFirstHitVarEntry := mod32 (kFirstMissSbtRecordIndex + mMissProgCount)
  let recordCountPerHit := pScene.getGeometryCount mHitProgCount
  let maxRootSigSize1 :=
    pProgram.hitProgs.foldl (fun acc p => getSigSizeAndCreateVars p acc) maxRootSigSize0
  let maxRootSigSize2 :=
    pProgram.missProgs.foldl (fun acc p => getSigSizeAndCreateVars p acc) maxRootSigSize1
  let hitEntries := mod32 (recordCountPerHit * mHitProgCount)
  let numEntries := mod32 (mMissProgCount + hitEntries + 1)
  let mRecordSize := mod32 (align_to alignment (mod32 (identifierSize + maxRootSigSize2)))
  let sbtSize := mod32 (numEntries * mRecordSize)
  { missProgCount := mMissProgCount
    hitProgCount := mHitProgCount
    firstHitVarEntry := mFirstHitVarEntry
    recordCountPerHit := recordCountPerHit
    programIdentifierSize := identifierSize
    recordSize := mRecordSize
    numEntries := numEntries
    sbtSize := sbtSize
    sbtDataSize := sbtSize }

/-- Byte offset of the ray-gen record (`getRayGenRecordPtr`,
RtProgramVars.cpp:138-141): `kRayGenSbtRecordIndex * mRecordSize` in
`uint32_t` arithmetic, as an offset into `mSbtData`. -/
def rayGenRecordOffset (v : RtVars) : Nat :=
  mod32 (kRayGenSbtRecordIndex * v.recordSize)

/-- Byte offset computed by `getMissRecordPtr` (RtProgramVars.cpp:143-148):
`mRecordSize * (kFirstMissSbtRecordIndex + missId)` in `uint32_t`
arithmetic. -/
def missRecordOffset (v : RtVars) (missId : Nat) : Nat :=
  mod32 (v.recordSize * (kFirstMissSbtRecordIndex + missId))

/-- Byte offset computed by `getHitRecordPtr` (RtProgramVars.cpp:150-156):
`meshIndex = mFirstHitVarEntry + mHitProgCount * meshId`, `recordIndex =
meshIndex + hitId`, offset `recordIndex * mRecordSize`, all in `uint32_t`
arithmetic (one outer reduction is equivalent for this `+`/`*` tree). -/
def hitRecordOffset (v : RtVars) (hitId meshId : Nat) : Nat :=
  mod32 ((v.firstHitVarEntry + v.hitProgCount * meshId + hitId) * v.recordSize)

/-- Accessor `RtProgramVars::getRayGenRecordPtr`: no assertion guards it, the
offset is returned unconditionally. -/
def getRayGenRecordPtr (v : RtVars) : Nat := rayGenRecordOffset v

/-- Accessor `RtProgramVars::getMissRecordPtr`: `assert(missId <
mMissProgCount)` then the offset.  A failed assertion is `none`. -/
def getMissRecordPtr (v : RtVars) (missId : Nat) : Option Nat :=
  if missId < v.missProgCount then some (missRecordOffset v missId) else none

/-- Accessor `RtProgramVars::getHitRecordPtr`: `assert(hitId <
mHitProgCount)` then the offset.  The source contains no bound check on
`meshId`.  A failed assertion is `none`. -/
def getHitRecordPtr (v : RtVars) (hitId meshId : Nat) : Option Nat :=
  if hitId < v.hitProgCount then some (hitRecordOffset v hitId meshId) else none

/-- Function `checkParams` (RtProgramVars.cpp:35-49): false when the scene is
missing, false when the program set has no ray-gen program, true otherwise. -/
def checkParams (pProgram : RtProgram) (pScene : Option Scene) : Bool :=
  match pScene, pProgram.rayGen with
  | none, _ => false
  | some _, none => false
  | some _, some _ => true

/-- Outcome of `RtProgramVars::create`: a usable object, the `nullptr` return
taken when `checkParams` (or a false-returning `init`) fails, or an aborted
run of `assert(mRecordSize != 0)` inside `init` (the only way `init` can fail
in the source, which otherwise always returns true). -/
inductive CreateResult where
  | ok (v : RtVars)
  | null
  | assertFailed
deriving DecidableEq

/-- Member `RtProgramVars::create` (RtProgramVars.cpp:56-64): returns
`nullptr` when `checkParams` fails; otherwise runs `init`, whose
`assert(mRecordSize != 0)` aborts on a zero record size and which returns
true in every other case. -/
def create (identifierSize alignment : Nat) (pProgram : RtProgram)
    (pScene : Option Scene) : CreateResult :=
  if checkParams pProgram pScene = false then CreateResult.null
  else
    match pScene, pProgram.rayGen with
    | some sc, some rg =>
      let v := init identifierSize alignment pProgram rg sc
      if v.recordSize = 0 then CreateResult.assertFailed else CreateResult.ok v
    | _, _ => CreateResult.null

/-- The externally determined outcome of `applyRtProgramVars`
(RtProgramVars.cpp:158-166) for each record: the function memcpy's the shader
identifier, points the command list at the record's parameter bytes and
returns `pVars->applyProgramVarsCommon(...)`, whose success depends only on
the binding state the caller set up beforehand.  That success bit per record
is this structure. -/
structure ApplyEnv where
  rayGenOk : Bool
  hitOk : Nat → Nat → Bool
  missOk : Nat → Bool

/-- One observable step of `RtProgramVars::apply`: a record written into the
staging buffer at a byte offset (the `applyRtProgramVars` call for it), or
the single whole-buffer upload `pCtx->updateBuffer(mpSBT.get(),
mSbtData.data())`. -/
inductive ApplyEvent where
  | writeRayGen (offset : Nat)
  | writeHit (hitId meshId offset : Nat)
  | writeMiss (missId offset : Nat)
  | upload
deriving DecidableEq

/-- A C-style `for` loop whose body may fail: run `step` on each element in
order; on the first failing step return false with the events produced so
far (the source's `return false` inside the loop), otherwise concatenate all
events and succeed. -/
def runBlocks (step : α → Bool × List ApplyEvent) : List α → Bool × List ApplyEvent
  | [] => (true, [])
  | a :: rest =>
    if (step a).1 then
      ((runBlocks step rest).1, (step a).2 ++ (runBlocks step rest).2)
    else (false, (step a).2)

/-- The body of the inner hit loop (RtProgramVars.cpp:179-186): one
`applyRtProgramVars` call on the pointer `getHitRecordPtr(h, i)` — whose
assertion `hitId < mHitProgCount` holds because `h` ranges below the
program's hit count, which `init` stored as `mHitProgCount`. -/
def applyHitRecord (env : ApplyEnv) (v : RtVars) (h i : Nat) : Bool × List ApplyEvent :=
  (env.hitOk h i, [ApplyEvent.writeHit h i (hitRecordOffset v h i)])

/-- The body of the miss loop (RtProgramVars.cpp:188-195): one
`applyRtProgramVars` call on the pointer `getMissRecordPtr(m)` — whose
assertion holds because `m` ranges below the program's miss count. -/
def applyMissRecord (env : ApplyEnv) (v : RtVars) (m : Nat) : Bool × List ApplyEvent :=
  (env.missOk m, [ApplyEvent.writeMiss m (missRecordOffset v m)])

/-- The nested hit loops of `RtProgramVars::apply` (RtProgramVars.cpp:177-187):
hit-program index `h` outer, geometry index `i` inner, early `return false`
on the first failing record. -/
def hitLoop (env : ApplyEnv) (v : RtVars) (hitCount geomCount : Nat) :
    Bool × List ApplyEvent :=
  runBlocks (fun h => runBlocks (fun i => applyHitRecord env v h i)
    (List.range geomCount)) (List.range hitCount)

/-- The miss loop of `RtProgramVars::apply` (RtProgramVars.cpp:188-195):
miss-program index in order, early `return false` on the first failure. -/
def missLoop (env : ApplyEnv) (v : RtVars) (missCount : Nat) :
    Bool × List ApplyEvent :=
  runBlocks (fun m => applyMissRecord env v m) (List.range missCount)

/-- Member `RtProgramVars::apply` (RtProgramVars.cpp:168-199), as the pair
(returned bool, ordered list of observable events).  The ray-gen record is
applied first and the source discards that call's return value
(`_rayGenResult` below).  The inner hit-loop bound re-reads
`mpScene->getGeometryCount(hitCount)` each iteration, which over one call of
a pure scene is the constant `geomCount`.  Any failing hit or miss record
returns false immediately; only after every loop finishes does the single
`updateBuffer` upload run. -/
def apply (v : RtVars) (pProgram : RtProgram) (pScene : Scene) (env : ApplyEnv) :
    Bool × List ApplyEvent :=
  let rgEv := ApplyEvent.writeRayGen (getRayGenRecordPtr v)
  let _rayGenResult := env.rayGenOk
  let hitCount := pProgram.hitProgs.length
  let geomCount := pScene.getGeometryCount hitCount
  let hits := hitLoop env v hitCount geomCount
  if hits.1 then
    let misses := missLoop env v pProgram.missProgs.length
    if misses.1 then
      (true, rgEv :: (hits.2 ++ misses.2 ++ [ApplyEvent.upload]))
    else (false, rgEv :: (hits.2 ++ misses.2))
  else (false, rgEv :: hits.2)

/-- The full event sequence of a successful `apply`, written out directly in
the spec's order: the ray-gen record, every hit record with hit-group index
outer and geometry index inner, every miss record in miss order, and the one
upload. -/
def fullApplyTrace (v : RtVars) (pProgram : RtProgram) (pScene : Scene) :
    List ApplyEvent :=
  ApplyEvent.writeRayGen (getRayGenRecordPtr v) ::
    (((List.range pProgram.hitProgs.length).flatMap fun h =>
        (List.range (pScene.getGeometryCount pProgram.hitProgs.length)).map fun i =>
          ApplyEvent.writeHit h i (hitRecordOffset v h i)) ++
      ((List.range pProgram.missProgs.length).map fun m =>
        ApplyEvent.writeMiss m (missRecordOffset v m)) ++
      [ApplyEvent.upload])

/-- The GPU-visible buffer after a list of events: only `upload` touches it,
replacing its contents with the staging buffer's; every record write goes to
the staging buffer alone. -/
def runEvents (staging gpu : List Nat) (evs : List ApplyEvent) : List Nat :=
  evs.foldl (fun g e => match e with
    | ApplyEvent.upload => staging
    | _ => g) gpu

/-- In-bounds condition for a staging-buffer write of one record: the
record's byte range `[offset, offset + recordSize)` lies inside the staging
buffer `mSbtData`.  Only hit-record writes are constrained; every other
event is vacuously fine. -/
def hitWriteInBounds (v : RtVars) : ApplyEvent → Prop
  | ApplyEvent.writeHit _ _ offset => offset + v.recordSize ≤ v.sbtDataSize
  | _ => True

/-- An `ApplyEnv` in which every record's binding application succeeds. -/
def allOkEnv : ApplyEnv :=
  { rayGenOk := true, hitOk := fun _ _ => true, missOk := fun _ => true }

/-- The spec's `maxParamBlockSize`: the running maximum of the root-signature
byte size over all program instances — the ray-gen program, every hit-group
program and every miss program. -/
def maxParamBlockSize (rg : ProgDesc) (p : RtProgram) : Nat :=
  ((rg :: (p.hitProgs ++ p.missProgs)).map ProgDesc.rootSigSize).foldl max 0

/-- One event list is an initial segment of another (the second extends the
first on the right). -/
def IsInitSeg (l₁ l₂ : List ApplyEvent) : Prop := ∃ t, l₁ ++ t = l₂

/-! ## Concrete sample configurations

`sampleProg`/`sampleScene` realise the spec's own concrete scenario (one hit
program, one miss program, three geometry instances, identifier size 32,
largest parameter block 64, alignment 64, hence record size 128 and five
records of 640 bytes total). -/

def sampleProg : RtProgram :=
  { rayGen := some { rootSigSize := 16 }
    hitProgs := [{ rootSigSize := 64 }]
    missProgs := [{ rootSigSize := 8 }] }

def sampleScene : Scene := { getGeometryCount := fun _ => 3 }

def sampleVars : RtVars := init 32 64 sampleProg { rootSigSize := 16 } sampleScene

/-- A scene whose geometry count shrank to 2 after `init` saw 3. -/
def shrinkScene : Scene := { getGeometryCount := fun _ => 2 }

/-- A scene whose geometry count grew to 4 after `init` saw 3. -/
def growScene : Scene := { getGeometryCount := fun _ => 4 }

/-- Degenerate configuration whose computed record size is zero: identifier
size 0 and every root signature empty. -/
def zeroProg : RtProgram :=
  { rayGen := some { rootSigSize := 0 }, hitProgs := [], missProgs := [] }

def zeroScene : Scene := { getGeometryCount := fun _ => 0 }

/-- An `ApplyEnv` in which only the ray-gen record's application fails. -/
def rayGenFailEnv : ApplyEnv :=
  { rayGenOk := false, hitOk := fun _ _ => true, missOk := fun _ => true }

/-- An `ApplyEnv` in which every hit record's application fails. -/
def hitFailEnv : ApplyEnv :=
  { rayGenOk := true, hitOk := fun _ _ => false, missOk := fun _ => true }

/-! ## Sanity checks on the spec's concrete scenario -/

example : sampleVars.recordSize = 128 := by decide
example : sampleVars.numEntries = 5 := by decide
example : sampleVars.sbtSize = 640 := by decide
example : getMissRecordPtr sampleVars 0 = some 128 := by decide
example : getHitRecordPtr sampleVars 0 2 = some 512 := by decide
example : (apply sampleVars sampleProg sampleScene allOkEnv).1 = true := by decide
example : (apply sampleVars sampleProg sampleScene allOkEnv).2 =
    fullApplyTrace sampleVars sampleProg sampleScene := by decide

/-! ## Arithmetic and fold helpers -/

theorem mod32_eq_of_lt {n : Nat} (h : n < 4294967296) : mod32 n = n :=
  Nat.mod_eq_of_lt h

theorem foldl_getSig_eq (l : List ProgDesc) (i : Nat) :
    l.foldl (fun acc p => getSigSizeAndCreateVars p acc) i
      = (l.map ProgDesc.rootSigSize).foldl max i := by
  induction l generalizing i with
  | nil => rfl
  | cons a l ih =>
    simp only [List.foldl_cons, List.map_cons]
    rw [ih]
    simp [getSigSizeAndCreateVars, Nat.max_comm]

/-- The maximum-tracking fold chain of `init` equals the spec-side maximum
over all program instances. -/
theorem init_max_eq (p : RtProgram) (rg : ProgDesc) :
    p.missProgs.foldl (fun acc q => getSigSizeAndCreateVars q acc)
      (p.hitProgs.foldl (fun acc q => getSigSizeAndCreateVars q acc)
        (getSigSizeAndCreateVars rg 0))
      = maxParamBlockSize rg p := by
  rw [foldl_getSig_eq, foldl_getSig_eq, maxParamBlockSize, List.map_cons,
    List.map_append, List.foldl_cons, List.foldl_append]
  simp [getSigSizeAndCreateVars]

/-- The record size `init` stores, rewritten through the spec-side maximum
over all program instances. -/
theorem init_recordSize_eq (identifierSize alignment : Nat) (p : RtProgram)
    (rg : ProgDesc) (s : Scene) :
    (init identifierSize alignment p rg s).recordSize
      = mod32 (align_to alignment (mod32 (identifierSize + maxParamBlockSize rg p))) := by
  show mod32 (align_to alignment (mod32 (identifierSize +
      p.missProgs.foldl (fun acc q => getSigSizeAndCreateVars q acc)
        (p.hitProgs.foldl (fun acc q => getSigSizeAndCreateVars q acc)
          (getSigSizeAndCreateVars rg 0))))) = _
  rw [init_max_eq]

/-- Sizes `init` computes, with 32-bit wrap-around discharged by the bounds
hypotheses. -/
theorem init_sizes (identifierSize alignment : Nat) (p : RtProgram)
    (rg : ProgDesc) (s : Scene)
    (hcnt : 1 + p.missProgs.length
        + p.hitProgs.length * s.getGeometryCount p.hitProgs.length < 4294967296)
    (hbuf : (1 + p.missProgs.length
          + p.hitProgs.length * s.getGeometryCount p.hitProgs.length)
        * (init identifierSize alignment p rg s).recordSize < 4294967296) :
    (init identifierSize alignment p rg s).numEntries
        = 1 + p.missProgs.length
          + p.hitProgs.length * s.getGeometryCount p.hitProgs.length
    ∧ (init identifierSize alignment p rg s).sbtSize
        = (1 + p.missProgs.length
            + p.hitProgs.length * s.getGeometryCount p.hitProgs.length)
          * (init identifierSize alignment p rg s).recordSize
    ∧ (init identifierSize alignment p rg s).sbtDataSize
        = (1 + p.missProgs.length
            + p.hitProgs.length * s.getGeometryCount p.hitProgs.length)
          * (init identifierSize alignment p rg s).recordSize := by
  set v := init identifierSize alignment p rg s with hv
  have hne : v.numEntries = mod32 (p.missProgs.length
      + mod32 (s.getGeometryCount p.hitProgs.length * p.hitProgs.length) + 1) := rfl
  have hcomm : s.getGeometryCount p.hitProgs.length * p.hitProgs.length
      = p.hitProgs.length * s.getGeometryCount p.hitProgs.length := Nat.mul_comm _ _
  have hHG : p.hitProgs.length * s.getGeometryCount p.hitProgs.length
      < 4294967296 := by omega
  have hn : v.numEntries = 1 + p.missProgs.length
      + p.hitProgs.length * s.getGeometryCount p.hitProgs.length := by
    rw [hne, hcomm, mod32_eq_of_lt hHG,
      mod32_eq_of_lt (show p.missProgs.length
        + p.hitProgs.length * s.getGeometryCount p.hitProgs.length + 1
        < 4294967296 by omega)]
    omega
  have hs : v.sbtSize = (1 + p.missProgs.length
        + p.hitProgs.length * s.getGeometryCount p.hitProgs.length)
      * v.recordSize := by
    have hss : v.sbtSize = mod32 (v.numEntries * v.recordSize) := rfl
    rw [hss, hn]
    exact mod32_eq_of_lt hbuf
  exact ⟨hn, hs, hs⟩

/-! ## C1 : accessor offsets -/

/-- C1: with a valid miss index and a valid (hit, geometry) pair, and the
whole table small enough not to wrap 32-bit arithmetic, the accessors return
exactly the spec's wire-layout offsets: ray-gen at 0, miss record `missId` at
`(1 + missId) * recordSize`, hit record `(hitId, geomId)` at
`((1 + missProgramCount) + hitProgramCount * geomId + hitId) * recordSize`. -/
theorem sbt_accessor_offsets (identifierSize alignment : Nat) (p : RtProgram)
    (rg : ProgDesc) (s : Scene) (missId hitId geomId : Nat)
    (hm : missId < p.missProgs.length)
    (hh : hitId < p.hitProgs.length)
    (hg : geomId < s.getGeometryCount p.hitProgs.length)
    (hcnt : 1 + p.missProgs.length
        + p.hitProgs.length * s.getGeometryCount p.hitProgs.length < 4294967296)
    (hbuf : (1 + p.missProgs.length
          + p.hitProgs.length * s.getGeometryCount p.hitProgs.length)
        * (init identifierSize alignment p rg s).recordSize < 4294967296) :
    getRayGenRecordPtr (init identifierSize alignment p rg s) = 0
    ∧ getMissRecordPtr (init identifierSize alignment p rg s) missId
        = some ((1 + missId) * (init identifierSize alignment p rg s).recordSize)
    ∧ getHitRecordPtr (init identifierSize alignment p rg s) hitId geomId
        = some (((1 + p.missProgs.length) + p.hitProgs.length * geomId + hitId)
            * (init identifierSize alignment p rg s).recordSize) := by
  set v := init identifierSize alignment p rg s with hv
  have hmc : v.missProgCount = p.missProgs.length := rfl
  have hhc : v.hitProgCount = p.hitProgs.length := rfl
  have hfhe : v.firstHitVarEntry = mod32 (1 + p.missProgs.length) := rfl
  have hMi : 1 + p.missProgs.length < 4294967296 := by omega
  refine ⟨?_, ?_, ?_⟩
  · simp [getRayGenRecordPtr, rayGenRecordOffset, kRayGenSbtRecordIndex, mod32]
  · rw [getMissRecordPtr, if_pos (show missId < v.missProgCount from hm)]
    have hoff : missRecordOffset v missId = (1 + missId) * v.recordSize := by
      rw [missRecordOffset, kFirstMissSbtRecordIndex, Nat.mul_comm]
      exact mod32_eq_of_lt (Nat.lt_of_le_of_lt
        (Nat.mul_le_mul_right v.recordSize (by omega)) hbuf)
    rw [hoff]
  · rw [getHitRecordPtr, if_pos (show hitId < v.hitProgCount from hh)]
    have hidx : 1 + p.missProgs.length + p.hitProgs.length * geomId + hitId + 1
        ≤ 1 + p.missProgs.length
          + p.hitProgs.length * s.getGeometryCount p.hitProgs.length := by
      have h1 : p.hitProgs.length * geomId + hitId + 1
          ≤ p.hitProgs.length * (geomId + 1) := by
        rw [Nat.mul_add, Nat.mul_one]; omega
      have h2 : p.hitProgs.length * (geomId + 1)
          ≤ p.hitProgs.length * s.getGeometryCount p.hitProgs.length :=
        Nat.mul_le_mul_left _ (by omega)
      omega
    have hoff : hitRecordOffset v hitId geomId
        = ((1 + p.missProgs.length) + p.hitProgs.length * geomId + hitId)
            * v.recordSize := by
      rw [hitRecordOffset, hfhe, hhc, mod32_eq_of_lt hMi]
      exact mod32_eq_of_lt (Nat.lt_of_le_of_lt
        (Nat.mul_le_mul_right v.recordSize (by omega)) hbuf)
    rw [hoff]

/-- C1 witness: the spec's own concrete scenario (identifier 32, alignment
64, one hit program, one miss program, three geometry instances). -/
theorem sbt_accessor_offsets_witness :
    getRayGenRecordPtr sampleVars = 0
    ∧ getMissRecordPtr sampleVars 0 = some ((1 + 0) * sampleVars.recordSize)
    ∧ getHitRecordPtr sampleVars 0 2
        = some (((1 + sampleProg.missProgs.length)
            + sampleProg.hitProgs.length * 2 + 0) * sampleVars.recordSize) :=
  sbt_accessor_offsets 32 64 sampleProg { rootSigSize := 16 } sampleScene 0 0 2
    (by decide) (by decide) (by decide) (by decide) (by decide)

/-! ## C2 : record size -/

/-- C2: the record size equals `alignUp(identifierSize + maxParamBlockSize,
alignment)` with the maximum taken over the ray-gen, every hit-group and
every miss program, and it is a multiple of the alignment. -/
theorem recordSize_aligned_max (identifierSize alignment : Nat) (p : RtProgram)
    (rg : ProgDesc) (s : Scene)
    (hsum : identifierSize + maxParamBlockSize rg p < 4294967296)
    (halign : align_to alignment (identifierSize + maxParamBlockSize rg p)
        < 4294967296) :
    (init identifierSize alignment p rg s).recordSize
        = align_to alignment (identifierSize + maxParamBlockSize rg p)
      ∧ alignment ∣ (init identifierSize alignment p rg s).recordSize := by
  have h1 := init_recordSize_eq identifierSize alignment p rg s
  rw [mod32_eq_of_lt hsum, mod32_eq_of_lt halign] at h1
  refine ⟨h1, ?_⟩
  rw [h1]
  unfold align_to
  exact Nat.dvd_mul_left _ _

/-- C2 witness at the concrete sample: record size 128 = alignUp(32+64, 64). -/
theorem recordSize_aligned_max_witness :
    (init 32 64 sampleProg { rootSigSize := 16 } sampleScene).recordSize
        = align_to 64 (32 + maxParamBlockSize { rootSigSize := 16 } sampleProg)
      ∧ 64 ∣ (init 32 64 sampleProg { rootSigSize := 16 } sampleScene).recordSize :=
  recordSize_aligned_max 32 64 sampleProg { rootSigSize := 16 } sampleScene
    (by decide) (by decide)

/-! ## C3 : record count and buffer sizes -/

/-- C3: with `Mi` miss programs, `H` hit programs and `G` geometry
instances, `init` computes `1 + Mi + H * G` records, and both the
GPU-visible buffer and the staging mirror get exactly
`totalRecords * recordSize` bytes. -/
theorem total_records_and_buffer (identifierSize alignment : Nat) (p : RtProgram)
    (rg : ProgDesc) (s : Scene)
    (hcnt : 1 + p.missProgs.length
        + p.hitProgs.length * s.getGeometryCount p.hitProgs.length < 4294967296)
    (hbuf : (1 + p.missProgs.length
          + p.hitProgs.length * s.getGeometryCount p.hitProgs.length)
        * (init identifierSize alignment p rg s).recordSize < 4294967296) :
    (init identifierSize alignment p rg s).numEntries
        = 1 + p.missProgs.length
          + p.hitProgs.length * s.getGeometryCount p.hitProgs.length
    ∧ (init identifierSize alignment p rg s).sbtSize
        = (1 + p.missProgs.length
            + p.hitProgs.length * s.getGeometryCount p.hitProgs.length)
          * (init identifierSize alignment p rg s).recordSize
    ∧ (init identifierSize alignment p rg s).sbtDataSize
        = (1 + p.missProgs.length
            + p.hitProgs.length * s.getGeometryCount p.hitProgs.length)
          * (init identifierSize alignment p rg s).recordSize :=
  init_sizes identifierSize alignment p rg s hcnt hbuf

/-- C3 witness: 5 records of 128 bytes, 640 bytes for both buffers. -/
theorem total_records_and_buffer_witness :
    (init 32 64 sampleProg { rootSigSize := 16 } sampleScene).numEntries
        = 1 + sampleProg.missProgs.length + sampleProg.hitProgs.length * 3
    ∧ (init 32 64 sampleProg { rootSigSize := 16 } sampleScene).sbtSize
        = (1 + sampleProg.missProgs.length + sampleProg.hitProgs.length * 3)
          * (init 32 64 sampleProg { rootSigSize := 16 } sampleScene).recordSize
    ∧ (init 32 64 sampleProg { rootSigSize := 16 } sampleScene).sbtDataSize
        = (1 + sampleProg.missProgs.length + sampleProg.hitProgs.length * 3)
          * (init 32 64 sampleProg { rootSigSize := 16 } sampleScene).recordSize := by
  have h := total_records_and_buffer 32 64 sampleProg { rootSigSize := 16 }
    sampleScene (by decide) (by decide)
  exact h

/-! ## C6 : accessor bound checks -/

/-- C6 (amended): `getMissRecordPtr` fails its assertion exactly on
`missId ≥ missProgramCount` and `getHitRecordPtr` exactly on
`hitId ≥ hitProgramCount`; the geometry index is never validated — the
assertion outcome of `getHitRecordPtr` does not depend on `geomId` at all. -/
theorem accessor_bound_checks (v : RtVars) (missId hitId geomId : Nat) :
    (getMissRecordPtr v missId = none ↔ v.missProgCount ≤ missId)
    ∧ (getHitRecordPtr v hitId geomId = none ↔ v.hitProgCount ≤ hitId) := by
  constructor
  · by_cases h : missId < v.missProgCount <;> simp [getMissRecordPtr, h] <;> omega
  · by_cases h : hitId < v.hitProgCount <;> simp [getHitRecordPtr, h] <;> omega

/-- C6 counterexample: in the sample configuration the scene has 3 geometry
instances, yet `getHitRecordPtr` with `geomId = 5` is not rejected — it
returns a pointer (offset 896, two whole records past the 640-byte staging
buffer). -/
theorem hit_accessor_geomId_unchecked :
    sampleVars.recordCountPerHit = 3
    ∧ getHitRecordPtr sampleVars 0 5 = some 896
    ∧ getHitRecordPtr sampleVars 0 5 ≠ none
    ∧ sampleVars.sbtDataSize = 640 := by decide

/-! ## C7, C8 : construction -/

/-- C7: `create` returns the null result exactly when the scene is missing
or the program set has no ray-gen program; when both are present and `init`
runs without tripping its record-size assertion, `create` returns the fully
initialised object. -/
theorem create_validates (identifierSize alignment : Nat) (p : RtProgram)
    (pScene : Option Scene) :
    (create identifierSize alignment p pScene = CreateResult.null
        ↔ pScene = none ∨ p.rayGen = none)
    ∧ ∀ sc rgp, pScene = some sc → p.rayGen = some rgp →
        (init identifierSize alignment p rgp sc).recordSize ≠ 0 →
        create identifierSize alignment p pScene
          = CreateResult.ok (init identifierSize alignment p rgp sc) := by
  constructor
  · cases pScene with
    | none => simp [create, checkParams]
    | some sc =>
      cases hr : p.rayGen with
      | none => simp [create, checkParams, hr]
      | some rgp =>
        by_cases h0 : (init identifierSize alignment p rgp sc).recordSize = 0 <;>
          simp [create, checkParams, hr, h0]
  · intro sc rgp hs hr h0
    subst hs
    simp [create, checkParams, hr, h0]

/-- C7 witness: the sample configuration constructs successfully. -/
theorem create_validates_witness :
    create 32 64 sampleProg (some sampleScene) = CreateResult.ok sampleVars :=
  (create_validates 32 64 sampleProg (some sampleScene)).2 sampleScene
    { rootSigSize := 16 } rfl rfl (by decide)

/-- C8 (amended): a computed record size of zero trips the fatal assertion
`assert(mRecordSize != 0)` inside `init`; `init` has no false-returning path
for it, so `create` does not surface it as the null result. -/
theorem zero_record_size_asserts (identifierSize alignment : Nat) (p : RtProgram)
    (rgp : ProgDesc) (sc : Scene) (hr : p.rayGen = some rgp)
    (h0 : (init identifierSize alignment p rgp sc).recordSize = 0) :
    create identifierSize alignment p (some sc) = CreateResult.assertFailed := by
  simp [create, checkParams, hr, h0]

/-- C8 witness: the degenerate configuration asserts out. -/
theorem zero_record_size_asserts_witness :
    create 0 64 zeroProg (some zeroScene) = CreateResult.assertFailed :=
  zero_record_size_asserts 0 64 zeroProg { rootSigSize := 0 } zeroScene rfl
    (by decide)

/-- C8 counterexample: with a zero computed record size, `create` does not
return the null/failed-construction result that a missing scene or missing
ray-gen program produces; it aborts on the assertion instead. -/
theorem zero_record_size_not_nullResult :
    (init 0 64 zeroProg { rootSigSize := 0 } zeroScene).recordSize = 0
    ∧ create 0 64 zeroProg (some zeroScene) ≠ CreateResult.null
    ∧ create 0 64 zeroProg (some zeroScene) = CreateResult.assertFailed := by
  decide

/-! ## Loop-trace helpers -/

theorem flatMap_singleton_map (f : Nat → ApplyEvent) (l : List Nat) :
    l.flatMap (fun i => [f i]) = l.map f := by
  induction l with
  | nil => rfl
  | cons a l ih => simp [List.flatMap_cons, ih]

theorem runBlocks_true_iff (step : α → Bool × List ApplyEvent) (l : List α) :
    (runBlocks step l).1 = true ↔ ∀ a ∈ l, (step a).1 = true := by
  induction l with
  | nil => simp [runBlocks]
  | cons a l ih =>
    by_cases h : (step a).1 = true
    · simp [runBlocks, h, ih]
    · simp [runBlocks, h]

theorem runBlocks_events_of_true (step : α → Bool × List ApplyEvent) (l : List α)
    (h : (runBlocks step l).1 = true) :
    (runBlocks step l).2 = l.flatMap (fun a => (step a).2) := by
  induction l with
  | nil => rfl
  | cons a l ih =>
    by_cases ha : (step a).1 = true
    · simp only [runBlocks, ha, if_true] at h ⊢
      rw [List.flatMap_cons, ih h]
    · simp [runBlocks, ha] at h

theorem runBlocks_initSeg (step : α → Bool × List ApplyEvent)
    (full : α → List ApplyEvent)
    (hfull : ∀ a, (step a).1 = true → (step a).2 = full a)
    (hpart : ∀ a, IsInitSeg (step a).2 (full a)) (l : List α) :
    IsInitSeg (runBlocks step l).2 (l.flatMap full) := by
  induction l with
  | nil => exact ⟨[], rfl⟩
  | cons a l ih =>
    by_cases ha : (step a).1 = true
    · obtain ⟨t, ht⟩ := ih
      refine ⟨t, ?_⟩
      simp only [runBlocks, ha, if_true, List.flatMap_cons]
      rw [hfull a ha, List.append_assoc, ht]
    · obtain ⟨t, ht⟩ := hpart a
      refine ⟨t ++ l.flatMap full, ?_⟩
      simp only [runBlocks, List.flatMap_cons]
      rw [if_neg ha]
      rw [← List.append_assoc, ht]

theorem runBlocks_mem (step : α → Bool × List ApplyEvent) (l : List α) :
    ∀ e ∈ (runBlocks step l).2, ∃ a, a ∈ l ∧ e ∈ (step a).2 := by
  induction l with
  | nil => intro e he; simp [runBlocks] at he
  | cons a l ih =>
    intro e he
    by_cases ha : (step a).1 = true
    · simp only [runBlocks, ha, if_true, List.mem_append] at he
      rcases he with he | he
      · exact ⟨a, List.mem_cons_self a l, he⟩
      · obtain ⟨b, hb, hbe⟩ := ih e he
        exact ⟨b, List.mem_cons_of_mem a hb, hbe⟩
    · simp only [runBlocks] at he
      rw [if_neg ha] at he
      exact ⟨a, List.mem_cons_self a l, he⟩

/-- The canonical hit-record event block: hit index outer, geometry index
inner. -/
theorem hitLoop_true_iff (env : ApplyEnv) (v : RtVars) (hitCount geomCount : Nat) :
    (hitLoop env v hitCount geomCount).1 = true
      ↔ ∀ h' < hitCount, ∀ i < geomCount, env.hitOk h' i = true := by
  rw [hitLoop, runBlocks_true_iff]
  constructor
  · intro hall h' hh' i hi
    have := (runBlocks_true_iff _ _).mp (hall h' (List.mem_range.mpr hh'))
    exact this i (List.mem_range.mpr hi)
  · intro hall h' hh'
    rw [runBlocks_true_iff]
    intro i hi
    exact hall h' (List.mem_range.mp hh') i (List.mem_range.mp hi)

theorem flatMap_congr_mem (l : List Nat) (f g : Nat → List ApplyEvent)
    (h : ∀ a ∈ l, f a = g a) : l.flatMap f = l.flatMap g := by
  induction l with
  | nil => rfl
  | cons a l ih =>
    rw [List.flatMap_cons, List.flatMap_cons, h a (List.mem_cons_self a l),
      ih (fun b hb => h b (List.mem_cons_of_mem a hb))]

theorem hitLoop_events_of_true (env : ApplyEnv) (v : RtVars)
    (hitCount geomCount : Nat) (h : (hitLoop env v hitCount geomCount).1 = true) :
    (hitLoop env v hitCount geomCount).2
      = (List.range hitCount).flatMap fun h' =>
          (List.range geomCount).map fun i =>
            ApplyEvent.writeHit h' i (hitRecordOffset v h' i) := by
  rw [hitLoop] at h ⊢
  rw [runBlocks_events_of_true _ _ h]
  apply flatMap_congr_mem
  intro h' hh'
  have hin : (runBlocks (fun i => applyHitRecord env v h' i)
      (List.range geomCount)).1 = true :=
    (runBlocks_true_iff _ _).mp h h' hh'
  rw [runBlocks_events_of_true _ _ hin]
  exact flatMap_singleton_map _ _

theorem hitLoop_initSeg (env : ApplyEnv) (v : RtVars) (hitCount geomCount : Nat) :
    IsInitSeg (hitLoop env v hitCount geomCount).2
      ((List.range hitCount).flatMap fun h' =>
        (List.range geomCount).map fun i =>
          ApplyEvent.writeHit h' i (hitRecordOffset v h' i)) := by
  rw [hitLoop]
  apply runBlocks_initSeg
  · intro h' hin
    rw [runBlocks_events_of_true _ _ hin]
    exact flatMap_singleton_map _ _
  · intro h'
    have := runBlocks_initSeg (fun i => applyHitRecord env v h' i)
      (fun i => [ApplyEvent.writeHit h' i (hitRecordOffset v h' i)])
      (fun i _ => rfl) (fun i => ⟨[], List.append_nil _⟩) (List.range geomCount)
    rwa [flatMap_singleton_map] at this

theorem hitLoop_mem (env : ApplyEnv) (v : RtVars) (hitCount geomCount : Nat) :
    ∀ e ∈ (hitLoop env v hitCount geomCount).2,
      ∃ h', h' < hitCount ∧ ∃ i, i < geomCount
        ∧ e = ApplyEvent.writeHit h' i (hitRecordOffset v h' i) := by
  intro e he
  obtain ⟨h', hh', hin⟩ := runBlocks_mem _ _ e he
  obtain ⟨i, hi, hie⟩ := runBlocks_mem _ _ e hin
  refine ⟨h', List.mem_range.mp hh', i, List.mem_range.mp hi, ?_⟩
  simpa [applyHitRecord] using hie

theorem missLoop_true_iff (env : ApplyEnv) (v : RtVars) (missCount : Nat) :
    (missLoop env v missCount).1 = true ↔ ∀ m < missCount, env.missOk m = true := by
  rw [missLoop, runBlocks_true_iff]
  constructor
  · intro hall m hm
    exact hall m (List.mem_range.mpr hm)
  · intro hall m hm
    exact hall m (List.mem_range.mp hm)

theorem missLoop_events_of_true (env : ApplyEnv) (v : RtVars) (missCount : Nat)
    (h : (missLoop env v missCount).1 = true) :
    (missLoop env v missCount).2
      = (List.range missCount).map fun m =>
          ApplyEvent.writeMiss m (missRecordOffset v m) := by
  rw [missLoop] at h ⊢
  rw [runBlocks_events_of_true _ _ h]
  exact flatMap_singleton_map _ _

theorem missLoop_initSeg (env : ApplyEnv) (v : RtVars) (missCount : Nat) :
    IsInitSeg (missLoop env v missCount).2
      ((List.range missCount).map fun m =>
        ApplyEvent.writeMiss m (missRecordOffset v m)) := by
  rw [missLoop]
  have := runBlocks_initSeg (fun m => applyMissRecord env v m)
    (fun m => [ApplyEvent.writeMiss m (missRecordOffset v m)])
    (fun m _ => rfl) (fun m => ⟨[], List.append_nil _⟩) (List.range missCount)
  rwa [flatMap_singleton_map] at this

theorem missLoop_mem (env : ApplyEnv) (v : RtVars) (missCount : Nat) :
    ∀ e ∈ (missLoop env v missCount).2,
      ∃ m, m < missCount ∧ e = ApplyEvent.writeMiss m (missRecordOffset v m) := by
  intro e he
  obtain ⟨m, hm, hme⟩ := runBlocks_mem _ _ e he
  refine ⟨m, List.mem_range.mp hm, ?_⟩
  simpa [applyMissRecord] using hme

/-! ## Shape of `apply` -/

/-- Zeta-reduced shape of `apply`, convenient for case analysis on the two
loop outcomes. -/
theorem apply_cases (v : RtVars) (p : RtProgram) (s : Scene) (env : ApplyEnv) :
    apply v p s env =
      if (hitLoop env v p.hitProgs.length (s.getGeometryCount p.hitProgs.length)).1 then
        if (missLoop env v p.missProgs.length).1 then
          (true, ApplyEvent.writeRayGen (getRayGenRecordPtr v) ::
            ((hitLoop env v p.hitProgs.length (s.getGeometryCount p.hitProgs.length)).2
              ++ (missLoop env v p.missProgs.length).2 ++ [ApplyEvent.upload]))
        else
          (false, ApplyEvent.writeRayGen (getRayGenRecordPtr v) ::
            ((hitLoop env v p.hitProgs.length (s.getGeometryCount p.hitProgs.length)).2
              ++ (missLoop env v p.missProgs.length).2))
      else
        (false, ApplyEvent.writeRayGen (getRayGenRecordPtr v) ::
          (hitLoop env v p.hitProgs.length (s.getGeometryCount p.hitProgs.length)).2) :=
  rfl

theorem apply_success_aux (v : RtVars) (p : RtProgram) (s : Scene) (env : ApplyEnv) :
    (apply v p s env).1 = true
      ↔ ((∀ h' < p.hitProgs.length,
            ∀ i < s.getGeometryCount p.hitProgs.length, env.hitOk h' i = true)
          ∧ ∀ m < p.missProgs.length, env.missOk m = true) := by
  rw [apply_cases]
  by_cases hh : (hitLoop env v p.hitProgs.length
      (s.getGeometryCount p.hitProgs.length)).1 = true
  · rw [if_pos hh]
    by_cases hm : (missLoop env v p.missProgs.length).1 = true
    · rw [if_pos hm]
      constructor
      · intro _
        exact ⟨(hitLoop_true_iff env v _ _).mp hh, (missLoop_true_iff env v _).mp hm⟩
      · intro _
        rfl
    · rw [if_neg hm]
      constructor
      · intro hfa
        simp at hfa
      · rintro ⟨-, hmiss⟩
        exact absurd ((missLoop_true_iff env v _).mpr hmiss) hm
  · rw [if_neg hh]
    constructor
    · intro hfa
      simp at hfa
    · rintro ⟨hhit, -⟩
      exact absurd ((hitLoop_true_iff env v _ _).mpr hhit) hh

theorem apply_false_no_upload (v : RtVars) (p : RtProgram) (s : Scene)
    (env : ApplyEnv) (h : ¬ (apply v p s env).1 = true) :
    ApplyEvent.upload ∉ (apply v p s env).2 := by
  rw [apply_cases] at h ⊢
  by_cases hh : (hitLoop env v p.hitProgs.length
      (s.getGeometryCount p.hitProgs.length)).1 = true
  · rw [if_pos hh] at h ⊢
    by_cases hm : (missLoop env v p.missProgs.length).1 = true
    · rw [if_pos hm] at h
      exact absurd rfl h
    · rw [if_neg hm]
      intro hmem
      rcases List.mem_cons.mp hmem with he | he
      · simp at he
      rcases List.mem_append.mp he with he | he
      · obtain ⟨h', -, i, -, heq⟩ := hitLoop_mem env v _ _ _ he
        simp at heq
      · obtain ⟨m, -, heq⟩ := missLoop_mem env v _ _ he
        simp at heq
  · rw [if_neg hh]
    intro hmem
    rcases List.mem_cons.mp hmem with he | he
    · simp at he
    · obtain ⟨h', -, i, -, heq⟩ := hitLoop_mem env v _ _ _ he
      simp at heq

theorem runEvents_no_upload (staging gpu : List Nat) (evs : List ApplyEvent)
    (h : ApplyEvent.upload ∉ evs) : runEvents staging gpu evs = gpu := by
  induction evs generalizing gpu with
  | nil => rfl
  | cons e evs ih =>
    have htail : ApplyEvent.upload ∉ evs :=
      fun hm => h (List.mem_cons_of_mem _ hm)
    cases e with
    | upload => exact absurd (List.mem_cons_self _ _) h
    | writeRayGen o => exact ih _ htail
    | writeHit a b c => exact ih _ htail
    | writeMiss a b => exact ih _ htail

theorem apply_trace_of_true (v : RtVars) (p : RtProgram) (s : Scene)
    (env : ApplyEnv) (h : (apply v p s env).1 = true) :
    (apply v p s env).2 = fullApplyTrace v p s := by
  rw [apply_cases] at h ⊢
  by_cases hh : (hitLoop env v p.hitProgs.length
      (s.getGeometryCount p.hitProgs.length)).1 = true
  · rw [if_pos hh] at h ⊢
    by_cases hm : (missLoop env v p.missProgs.length).1 = true
    · rw [if_pos hm]
      rw [fullApplyTrace, hitLoop_events_of_true env v _ _ hh,
        missLoop_events_of_true env v _ hm]
    · rw [if_neg hm] at h
      simp at h
  · rw [if_neg hh] at h
    simp at h

theorem apply_initSeg (v : RtVars) (p : RtProgram) (s : Scene) (env : ApplyEnv) :
    IsInitSeg (apply v p s env).2 (fullApplyTrace v p s) := by
  by_cases hs : (apply v p s env).1 = true
  · rw [apply_trace_of_true v p s env hs]
    exact ⟨[], List.append_nil _⟩
  · rw [apply_cases, fullApplyTrace]
    by_cases hh : (hitLoop env v p.hitProgs.length
        (s.getGeometryCount p.hitProgs.length)).1 = true
    · rw [if_pos hh]
      by_cases hm : (missLoop env v p.missProgs.length).1 = true
      · exact absurd (by rw [apply_cases, if_pos hh, if_pos hm]) hs
      · rw [if_neg hm]
        obtain ⟨t, ht⟩ := missLoop_initSeg env v p.missProgs.length
        refine ⟨t ++ [ApplyEvent.upload], ?_⟩
        rw [hitLoop_events_of_true env v _ _ hh]
        simp only [List.cons_append, List.append_assoc, ← ht]
    · rw [if_neg hh]
      obtain ⟨t, ht⟩ := hitLoop_initSeg env v p.hitProgs.length
        (s.getGeometryCount p.hitProgs.length)
      refine ⟨t ++ (((List.range p.missProgs.length).map fun m =>
        ApplyEvent.writeMiss m (missRecordOffset v m)) ++ [ApplyEvent.upload]), ?_⟩
      simp only [List.cons_append, List.append_assoc, ← ht]

theorem apply_mem_cases (v : RtVars) (p : RtProgram) (s : Scene) (env : ApplyEnv) :
    ∀ e ∈ (apply v p s env).2,
      e = ApplyEvent.writeRayGen (getRayGenRecordPtr v)
      ∨ (∃ h', h' < p.hitProgs.length ∧ ∃ i, i < s.getGeometryCount p.hitProgs.length
          ∧ e = ApplyEvent.writeHit h' i (hitRecordOffset v h' i))
      ∨ (∃ m, m < p.missProgs.length ∧ e = ApplyEvent.writeMiss m (missRecordOffset v m))
      ∨ e = ApplyEvent.upload := by
  intro e he
  rw [apply_cases] at he
  by_cases hh : (hitLoop env v p.hitProgs.length
      (s.getGeometryCount p.hitProgs.length)).1 = true
  · rw [if_pos hh] at he
    by_cases hm : (missLoop env v p.missProgs.length).1 = true
    · rw [if_pos hm] at he
      rcases List.mem_cons.mp he with he | he
      · exact Or.inl he
      rcases List.mem_append.mp he with he | he
      · rcases List.mem_append.mp he with he | he
        · exact Or.inr (Or.inl (hitLoop_mem env v _ _ e he))
        · exact Or.inr (Or.inr (Or.inl (missLoop_mem env v _ e he)))
      · exact Or.inr (Or.inr (Or.inr (List.mem_singleton.mp he)))
    · rw [if_neg hm] at he
      rcases List.mem_cons.mp he with he | he
      · exact Or.inl he
      rcases List.mem_append.mp he with he | he
      · exact Or.inr (Or.inl (hitLoop_mem env v _ _ e he))
      · exact Or.inr (Or.inr (Or.inl (missLoop_mem env v _ e he)))
  · rw [if_neg hh] at he
    rcases List.mem_cons.mp he with he | he
    · exact Or.inl he
    · exact Or.inr (Or.inl (hitLoop_mem env v _ _ e he))

/-! ## C4 : ray-gen result is dropped -/

/-- C4 (amended): `apply` reports success exactly when every hit record's
and every miss record's binding application succeeds; the outcome of the
ray-gen record's application plays no part because the source discards the
return value of that first `applyRtProgramVars` call. -/
theorem apply_success_ignores_rayGen (v : RtVars) (p : RtProgram) (s : Scene)
    (env : ApplyEnv) :
    (apply v p s env).1 = true
      ↔ ((∀ h' < p.hitProgs.length,
            ∀ i < s.getGeometryCount p.hitProgs.length, env.hitOk h' i = true)
          ∧ ∀ m < p.missProgs.length, env.missOk m = true) :=
  apply_success_aux v p s env

/-- C4 counterexample: in the sample configuration with a failing ray-gen
binding application (and everything else fine), `apply` still returns
success. -/
theorem apply_rayGen_failure_ignored :
    rayGenFailEnv.rayGenOk = false
    ∧ (apply sampleVars sampleProg sampleScene rayGenFailEnv).1 = true := by
  decide

/-! ## C5 : failure aborts before the upload -/

/-- C5: if any hit or miss record's binding serialization fails, `apply`
returns failure, never emits the whole-buffer upload, and therefore the
GPU-visible buffer is byte-for-byte whatever it was before the call. -/
theorem apply_failure_no_partial_commit (v : RtVars) (p : RtProgram) (s : Scene)
    (env : ApplyEnv)
    (hfail : (∃ h', h' < p.hitProgs.length
          ∧ ∃ i, i < s.getGeometryCount p.hitProgs.length ∧ env.hitOk h' i = false)
      ∨ ∃ m, m < p.missProgs.length ∧ env.missOk m = false) :
    (apply v p s env).1 = false
    ∧ ApplyEvent.upload ∉ (apply v p s env).2
    ∧ ∀ staging gpu, runEvents staging gpu (apply v p s env).2 = gpu := by
  have hns : ¬ (apply v p s env).1 = true := by
    rw [apply_success_aux]
    rintro ⟨hhit, hmiss⟩
    rcases hfail with ⟨h', hh', i, hi, hev⟩ | ⟨m, hm, hev⟩
    · rw [hhit h' hh' i hi] at hev
      cases hev
    · rw [hmiss m hm] at hev
      cases hev
  have hfalse : (apply v p s env).1 = false := by
    cases hE : (apply v p s env).1
    · rfl
    · exact absurd hE hns
  have hnu := apply_false_no_upload v p s env hns
  exact ⟨hfalse, hnu, fun staging gpu => runEvents_no_upload staging gpu _ hnu⟩

/-- C5 witness: a failing hit record in the sample configuration. -/
theorem apply_failure_no_partial_commit_witness :
    (apply sampleVars sampleProg sampleScene hitFailEnv).1 = false
    ∧ ApplyEvent.upload ∉ (apply sampleVars sampleProg sampleScene hitFailEnv).2
    ∧ ∀ staging gpu,
        runEvents staging gpu (apply sampleVars sampleProg sampleScene hitFailEnv).2
          = gpu :=
  apply_failure_no_partial_commit sampleVars sampleProg sampleScene hitFailEnv
    (Or.inl ⟨0, by decide, 0, by decide, rfl⟩)

/-! ## C9 : deterministic ordering and the single commit point -/

/-- C9: every `apply` trace is an initial segment of the canonical sequence
(ray-gen record, hit records with hit index outer and geometry index inner,
miss records in order, one upload); the full sequence is produced exactly
when `apply` succeeds, and a failed `apply` stops early without ever
reaching the upload. -/
theorem apply_order_and_commit (v : RtVars) (p : RtProgram) (s : Scene)
    (env : ApplyEnv) :
    IsInitSeg (apply v p s env).2 (fullApplyTrace v p s)
    ∧ ((apply v p s env).1 = true ↔ (apply v p s env).2 = fullApplyTrace v p s)
    ∧ ((apply v p s env).1 = false → ApplyEvent.upload ∉ (apply v p s env).2) := by
  refine ⟨apply_initSeg v p s env, ⟨apply_trace_of_true v p s env, ?_⟩, ?_⟩
  · intro ht
    by_contra hs
    have hnu := apply_false_no_upload v p s env hs
    rw [ht] at hnu
    exact hnu (by simp [fullApplyTrace])
  · intro hf
    exact apply_false_no_upload v p s env (by simp [hf])

/-! ## C10 : hit-record writes and the staging-buffer bound -/

/-- C10: the staging buffer is sized once by `init` from the geometry count
the scene reported then, while `apply` iterates the scene's current count.
If the apply-time count is at most the init-time count (and the 32-bit
arithmetic does not wrap), every hit-record write of `apply` stays inside
the staging buffer; if the count grew and records are non-empty, the
successful all-bindings-resolve run writes a hit record past the end of the
staging buffer. -/
theorem hit_record_writes_in_bounds (identifierSize alignment : Nat)
    (p : RtProgram) (rg : ProgDesc) (sceneInit sceneApply : Scene)
    (env : ApplyEnv) :
    ((sceneApply.getGeometryCount p.hitProgs.length
          ≤ sceneInit.getGeometryCount p.hitProgs.length
        ∧ 1 + p.missProgs.length
            + p.hitProgs.length * sceneInit.getGeometryCount p.hitProgs.length
          < 4294967296
        ∧ (1 + p.missProgs.length
              + p.hitProgs.length * sceneInit.getGeometryCount p.hitProgs.length)
            * (init identifierSize alignment p rg sceneInit).recordSize
          < 4294967296) →
      ∀ e ∈ (apply (init identifierSize alignment p rg sceneInit) p sceneApply env).2,
        hitWriteInBounds (init identifierSize alignment p rg sceneInit) e)
    ∧ ((sceneInit.getGeometryCount p.hitProgs.length
          < sceneApply.getGeometryCount p.hitProgs.length
        ∧ 0 < p.hitProgs.length
        ∧ 0 < (init identifierSize alignment p rg sceneInit).recordSize
        ∧ 1 + p.missProgs.length
            + p.hitProgs.length * sceneApply.getGeometryCount p.hitProgs.length
          < 4294967296
        ∧ (1 + p.missProgs.length
              + p.hitProgs.length * sceneApply.getGeometryCount p.hitProgs.length)
            * (init identifierSize alignment p rg sceneInit).recordSize
          < 4294967296) →
      ∃ e ∈ (apply (init identifierSize alignment p rg sceneInit) p sceneApply
          allOkEnv).2,
        ¬ hitWriteInBounds (init identifierSize alignment p rg sceneInit) e) := by
  constructor
  · rintro ⟨hGA, hcnt, hbuf⟩ e he
    set v := init identifierSize alignment p rg sceneInit with hv
    rcases apply_mem_cases v p sceneApply env e he with
      he | ⟨h', hh', i, hi, he⟩ | ⟨m, hm, he⟩ | he
    · subst he; exact trivial
    · subst he
      show hitRecordOffset v h' i + v.recordSize ≤ v.sbtDataSize
      have hfhe : v.firstHitVarEntry = 1 + p.missProgs.length :=
        mod32_eq_of_lt (show 1 + p.missProgs.length < 4294967296 by omega)
      have hhc : v.hitProgCount = p.hitProgs.length := rfl
      have hsd := (init_sizes identifierSize alignment p rg sceneInit hcnt hbuf).2.2
      have hidx : 1 + p.missProgs.length + p.hitProgs.length * i + h' + 1
          ≤ 1 + p.missProgs.length
            + p.hitProgs.length * sceneInit.getGeometryCount p.hitProgs.length := by
        have h1 : p.hitProgs.length * i + h' + 1
            ≤ p.hitProgs.length * (i + 1) := by
          rw [Nat.mul_add, Nat.mul_one]; omega
        have h2 : p.hitProgs.length * (i + 1)
            ≤ p.hitProgs.length * sceneInit.getGeometryCount p.hitProgs.length :=
          Nat.mul_le_mul_left _ (by omega)
        omega
      have hoff : hitRecordOffset v h' i
          = (1 + p.missProgs.length + p.hitProgs.length * i + h') * v.recordSize := by
        rw [hitRecordOffset, hfhe, hhc]
        exact mod32_eq_of_lt (Nat.lt_of_le_of_lt
          (Nat.mul_le_mul_right v.recordSize (by omega)) hbuf)
      rw [hoff, hsd, ← Nat.succ_mul]
      exact Nat.mul_le_mul_right v.recordSize hidx
    · subst he; exact trivial
    · subst he; exact trivial
  · rintro ⟨hGA, hH, hrs, hcnt2, hbuf2⟩
    set v := init identifierSize alignment p rg sceneInit with hv
    have hmono : p.hitProgs.length * sceneInit.getGeometryCount p.hitProgs.length
        ≤ p.hitProgs.length * sceneApply.getGeometryCount p.hitProgs.length :=
      Nat.mul_le_mul_left _ (by omega)
    have hcnt1 : 1 + p.missProgs.length
        + p.hitProgs.length * sceneInit.getGeometryCount p.hitProgs.length
        < 4294967296 := by omega
    have hbuf1 : (1 + p.missProgs.length
          + p.hitProgs.length * sceneInit.getGeometryCount p.hitProgs.length)
        * v.recordSize < 4294967296 :=
      Nat.lt_of_le_of_lt (Nat.mul_le_mul_right v.recordSize (by omega)) hbuf2
    have hsd := (init_sizes identifierSize alignment p rg sceneInit hcnt1 hbuf1).2.2
    have hfhe : v.firstHitVarEntry = 1 + p.missProgs.length :=
      mod32_eq_of_lt (show 1 + p.missProgs.length < 4294967296 by omega)
    have hhc : v.hitProgCount = p.hitProgs.length := rfl
    have hsucc : (apply v p sceneApply allOkEnv).1 = true := by
      rw [apply_success_aux]
      exact ⟨fun _ _ _ _ => rfl, fun _ _ => rfl⟩
    refine ⟨ApplyEvent.writeHit (p.hitProgs.length - 1)
        (sceneApply.getGeometryCount p.hitProgs.length - 1)
        (hitRecordOffset v (p.hitProgs.length - 1)
          (sceneApply.getGeometryCount p.hitProgs.length - 1)), ?_, ?_⟩
    · rw [apply_trace_of_true _ _ _ _ hsucc, fullApplyTrace]
      apply List.mem_cons_of_mem
      apply List.mem_append_left
      apply List.mem_append_left
      rw [List.mem_flatMap]
      exact ⟨p.hitProgs.length - 1, List.mem_range.mpr (by omega),
        List.mem_map.mpr ⟨sceneApply.getGeometryCount p.hitProgs.length - 1,
          List.mem_range.mpr (by omega), rfl⟩⟩
    · show ¬ (hitRecordOffset v (p.hitProgs.length - 1)
          (sceneApply.getGeometryCount p.hitProgs.length - 1) + v.recordSize
        ≤ v.sbtDataSize)
      have hone : sceneApply.getGeometryCount p.hitProgs.length - 1 + 1
          = sceneApply.getGeometryCount p.hitProgs.length := by omega
      have hmul : p.hitProgs.length
            * (sceneApply.getGeometryCount p.hitProgs.length - 1)
            + p.hitProgs.length
          = p.hitProgs.length * sceneApply.getGeometryCount p.hitProgs.length := by
        calc p.hitProgs.length
              * (sceneApply.getGeometryCount p.hitProgs.length - 1)
              + p.hitProgs.length
            = p.hitProgs.length
              * (sceneApply.getGeometryCount p.hitProgs.length - 1 + 1) := by
              rw [Nat.mul_add, Nat.mul_one]
          _ = p.hitProgs.length
              * sceneApply.getGeometryCount p.hitProgs.length := by rw [hone]
      have hoff : hitRecordOffset v (p.hitProgs.length - 1)
            (sceneApply.getGeometryCount p.hitProgs.length - 1)
          = (1 + p.missProgs.length
              + p.hitProgs.length
                * (sceneApply.getGeometryCount p.hitProgs.length - 1)
              + (p.hitProgs.length - 1)) * v.recordSize := by
        rw [hitRecordOffset, hfhe, hhc]
        exact mod32_eq_of_lt (Nat.lt_of_le_of_lt
          (Nat.mul_le_mul_right v.recordSize (by omega)) hbuf2)
      rw [hoff, hsd]
      intro hle
      rw [← Nat.succ_mul] at hle
      have heq : 1 + p.missProgs.length
            + p.hitProgs.length * (sceneApply.getGeometryCount p.hitProgs.length - 1)
            + (p.hitProgs.length - 1) + 1
          = 1 + p.missProgs.length
            + p.hitProgs.length * sceneApply.getGeometryCount p.hitProgs.length := by
        omega
      have hcancel := Nat.le_of_mul_le_mul_right hle hrs
      have hstrict : p.hitProgs.length
            * sceneInit.getGeometryCount p.hitProgs.length + p.hitProgs.length
          ≤ p.hitProgs.length * sceneApply.getGeometryCount p.hitProgs.length := by
        have hstep := Nat.mul_le_mul_left p.hitProgs.length
          (show sceneInit.getGeometryCount p.hitProgs.length + 1
            ≤ sceneApply.getGeometryCount p.hitProgs.length by omega)
        rw [Nat.mul_add, Nat.mul_one] at hstep
        exact hstep
      omega

/-- C10 witness: both directions exercised on the sample configuration — the
scene shrinking from 3 to 2 geometry instances keeps every hit write inside
the 640-byte staging buffer; growing from 3 to 4 drives a hit write past its
end. -/
theorem hit_record_writes_in_bounds_witness :
    (∀ e ∈ (apply (init 32 64 sampleProg { rootSigSize := 16 } sampleScene)
        sampleProg shrinkScene allOkEnv).2,
      hitWriteInBounds (init 32 64 sampleProg { rootSigSize := 16 } sampleScene) e)
    ∧ ∃ e ∈ (apply (init 32 64 sampleProg { rootSigSize := 16 } sampleScene)
        sampleProg growScene allOkEnv).2,
      ¬ hitWriteInBounds (init 32 64 sampleProg { rootSigSize := 16 } sampleScene) e :=
  ⟨(hit_record_writes_in_bounds 32 64 sampleProg { rootSigSize := 16 }
      sampleScene shrinkScene allOkEnv).1 ⟨by decide, by decide, by decide⟩,
    (hit_record_writes_in_bounds 32 64 sampleProg { rootSigSize := 16 }
      sampleScene growScene allOkEnv).2
      ⟨by decide, by decide, by decide, by decide, by decide⟩⟩

end Falcor
